import Mathlib

/-!
Shallow embedding of the control logic of the OmniVision OV64A40 V4L2 sensor
driver (`drivers/media/i2c/ov64a40.c`): the mode catalogue, the timing
resolver, the register-program builders, the control dependency engine and
the streaming sequencer.  Register transport (`cci_write`, `cci_update_bits`,
`cci_multi_reg_write`) is modelled as explicit state passing over a bus
oracle that records the emitted write sequence and can fail any individual
write, and runtime power management is modelled as an explicit usage count.
-/

namespace OV64A40

/-! ## Constants

The numeric registers and limits of the driver live in `ov64a40_regs.h`,
which is not part of the sources under verification; the constants below are
therefore modelled, with representative values, from what the spec and the
driver source say about them. -/

/-- Modelled from the spec: one of the two known link-frequency constants
(the "reduced" 360 MHz frequency) defined in the missing `ov64a40_regs.h`. -/
def OV64A40_LINK_FREQ_360M : Int := 360000000

/-- Modelled from the spec: the other known link-frequency constant
(the "fast" 456 MHz frequency) defined in the missing `ov64a40_regs.h`. -/
def OV64A40_LINK_FREQ_456M : Int := 456000000

/-- Modelled from the spec: the external clock frequency checked at probe
time; the source comment "Default 456MHz with 24MHz input clock" fixes it
at 24 MHz.  Defined in the missing `ov64a40_regs.h`. -/
def OV64A40_XCLK_FREQ : Nat := 24000000

/-- Modelled from the spec: the fixed pixel rate advertised by the driver,
defined in the missing `ov64a40_regs.h`.  300 MHz is the value consistent
with the per-mode frame rates of the catalogue and the documented internal
x4 line-length multiplier. -/
def OV64A40_PIXEL_RATE : Nat := 300000000

/-- Modelled from the spec: the margin subtracted from the frame length to
bound exposure (`exposure.max = total_lines - EXPOSURE_MARGIN`).  Defined in
the missing `ov64a40_regs.h`; representative value. -/
def OV64A40_EXPOSURE_MARGIN : Int := 32

/-- Modelled from the spec: the minimum exposure value.  Defined in the
missing `ov64a40_regs.h`; representative value. -/
def OV64A40_EXPOSURE_MIN : Int := 16

/-- Modelled from the spec: the minimum vertical-blanking value, defined in
the missing `ov64a40_regs.h`; representative value. -/
def OV64A40_VBLANK_MIN : Int := 128

/-- Modelled from the spec: the maximum programmable total frame length,
defined in the missing `ov64a40_regs.h`; representative value. -/
def OV64A40_VTS_MAX : Int := 0xffffff

/-- Modelled from the spec: analogue gain minimum (missing header);
representative value, no claim depends on it. -/
def OV64A40_ANA_GAIN_MIN : Int := 128

/-- Modelled from the spec: analogue gain maximum (missing header);
representative value, no claim depends on it. -/
def OV64A40_ANA_GAIN_MAX : Int := 2047

/-- Modelled from the spec: analogue gain default (missing header);
representative value, no claim depends on it. -/
def OV64A40_ANA_GAIN_DEFAULT : Int := 128

/-- Modelled from the spec: the "start streaming" value written to the SMIA
register; stopping clears `BIT(0)`, so streaming is bit 0. -/
def OV64A40_REG_SMIA_STREAMING : Nat := 1

/-- Modelled from the spec: vertical-binning bit of `TIMING_CTRL_20`
(missing header); representative single-bit mask. -/
def OV64A40_TIMING_CTRL_20_VBIN : Nat := 2

/-- Modelled from the spec: vertical-flip bit of `TIMING_CTRL_20`; the
driver writes `ctrl->val << 2` against it, so it is bit 2. -/
def OV64A40_TIMING_CTRL_20_VFLIP : Nat := 4

/-- Modelled from the spec: horizontal-binning field of `TIMING_CTRL_21`
(missing header); representative mask, no claim depends on its value. -/
def OV64A40_TIMING_CTRL_21_HBIN_CONF : Nat := 16

/-- Modelled from the spec: horizontal-flip bit of `TIMING_CTRL_21`
(missing header); representative single-bit mask (bit 2). -/
def OV64A40_TIMING_CTRL_21_HFLIP : Nat := 4

/-- Modelled from the spec: the register values of the five test-pattern
menu entries (missing header); representative values, no claim depends on
them. -/
def ov64a40_test_pattern_val : List Nat := [0, 128, 130, 132, 134]

/-- The C error number `EINVAL` (as the negative return `-EINVAL`). -/
def EINVAL : Int := 22

/-! ## Data model -/

/-- A `v4l2_rect` crop window. -/
structure Rect where
  left : Nat
  top : Nat
  width : Nat
  height : Nat
  deriving DecidableEq, Repr

/-- `struct ov64a40_timings`: resolved (total frame lines, line length). -/
structure Timings where
  vts : Nat
  ppl : Nat
  deriving DecidableEq, Repr

/-- `struct ov64a40_subsampling`. -/
structure Subsampling where
  x_odd_inc : Nat
  x_even_inc : Nat
  y_odd_inc : Nat
  y_even_inc : Nat
  vbin : Bool
  hbin : Bool
  deriving DecidableEq, Repr

/-- The per-mode register tables and the fixed tables of the driver.  Their
contents live in the missing `ov64a40_regs.h`; each table is identified by
name and a bulk write of it is a single logged event whose outcome the bus
oracle decides. -/
inductive Table where
  | init_table
  | pll_config
  | t9248x6944
  | t8000x6000
  | t4624_3472
  | t3840x2160
  | t2312_1736
  | t1920x1080
  deriving DecidableEq, Repr

/-- `struct ov64a40_mode`: one catalogue entry.  The two timing variants are
the array `timings_default[OV64A40_NUM_LINK_FREQ]` of the source, with
index 0 = `OV64A40_LINK_FREQ_456M_ID` and index 1 =
`OV64A40_LINK_FREQ_360M_ID`. -/
structure Mode where
  width : Nat
  height : Nat
  timings456 : Timings
  timings360 : Timings
  reglist : Table
  analogue_crop : Rect
  digital_crop : Rect
  subsampling : Subsampling
  deriving DecidableEq, Repr

/-- Array access `mode->timings_default[i]` (index 0 = 456M id,
index 1 = 360M id). -/
def Mode.timingsAt (m : Mode) : Nat → Timings
  | 0 => m.timings456
  | _ => m.timings360

/-- The fixed mode catalogue `ov64a40_modes[]` of the source, in order. -/
def ov64a40_modes : List Mode :=
  [ { width := 9248, height := 6944
      timings456 := { vts := 7072, ppl := 4072 }
      timings360 := { vts := 7072, ppl := 5248 }
      reglist := Table.t9248x6944
      analogue_crop := { left := 0, top := 0, width := 9280, height := 6976 }
      digital_crop := { left := 17, top := 16, width := 9248, height := 6944 }
      subsampling := { x_odd_inc := 1, x_even_inc := 1, y_odd_inc := 1,
                       y_even_inc := 1, vbin := false, hbin := false } },
    { width := 8000, height := 6000
      timings456 := { vts := 6400, ppl := 3848 }
      timings360 := { vts := 6304, ppl := 4736 }
      reglist := Table.t8000x6000
      analogue_crop := { left := 624, top := 472, width := 8048, height := 6032 }
      digital_crop := { left := 17, top := 16, width := 8000, height := 6000 }
      subsampling := { x_odd_inc := 1, x_even_inc := 1, y_odd_inc := 1,
                       y_even_inc := 1, vbin := false, hbin := false } },
    { width := 4624, height := 3472
      timings456 := { vts := 3533, ppl := 2112 }
      timings360 := { vts := 3939, ppl := 2720 }
      reglist := Table.t4624_3472
      analogue_crop := { left := 0, top := 0, width := 9280, height := 6976 }
      digital_crop := { left := 9, top := 8, width := 4624, height := 3472 }
      subsampling := { x_odd_inc := 3, x_even_inc := 1, y_odd_inc := 1,
                       y_even_inc := 1, vbin := true, hbin := false } },
    { width := 3840, height := 2160
      timings456 := { vts := 2218, ppl := 1690 }
      timings360 := { vts := 2270, ppl := 2202 }
      reglist := Table.t3840x2160
      analogue_crop := { left := 784, top := 1312, width := 7712, height := 4352 }
      digital_crop := { left := 9, top := 8, width := 3840, height := 2160 }
      subsampling := { x_odd_inc := 3, x_even_inc := 1, y_odd_inc := 1,
                       y_even_inc := 1, vbin := true, hbin := false } },
    { width := 2312, height := 1736
      timings456 := { vts := 1998, ppl := 1248 }
      timings360 := { vts := 1994, ppl := 1504 }
      reglist := Table.t2312_1736
      analogue_crop := { left := 0, top := 0, width := 9280, height := 6976 }
      digital_crop := { left := 5, top := 4, width := 2312, height := 1736 }
      subsampling := { x_odd_inc := 3, x_even_inc := 1, y_odd_inc := 3,
                       y_even_inc := 1, vbin := true, hbin := true } },
    { width := 1920, height := 1080
      timings456 := { vts := 1397, ppl := 880 }
      timings360 := { vts := 1216, ppl := 1360 }
      reglist := Table.t1920x1080
      analogue_crop := { left := 784, top := 1312, width := 7712, height := 4352 }
      digital_crop := { left := 7, top := 6, width := 1920, height := 1080 }
      subsampling := { x_odd_inc := 3, x_even_inc := 1, y_odd_inc := 3,
                       y_even_inc := 1, vbin := true, hbin := true } } ]

/-! ## Register transport model

The driver's registers are identified by the symbolic names the source uses
(their numeric addresses live in the missing `ov64a40_regs.h`).  A `Bus`
oracle decides the outcome of every read and write; the chained
`cci_write`/`cci_update_bits` helpers of the Linux CCI API skip their
operation when an earlier call in the chain already failed, and record the
first error. -/

/-- The registers written by the driver core, by their source names. -/
inductive Reg where
  | TIMING_CTRL0
  | TIMING_CTRL2
  | TIMING_CTRL4
  | TIMING_CTRL6
  | TIMING_CTRL8
  | TIMING_CTRLA
  | TIMING_CTRL10
  | TIMING_CTRL12
  | TIMING_CTRLC
  | TIMING_CTRLE
  | TIMING_CTRL14
  | TIMING_CTRL15
  | TIMING_CTRL_20
  | TIMING_CTRL_21
  | MEC_LONG_EXPO
  | MEC_LONG_GAIN
  | TIMINGS_VTS_LOW
  | TIMINGS_VTS_MID
  | TIMINGS_VTS_HIGH
  | TEST_PATTERN
  | SMIA
  | PLL1_MULTIPLIER
  deriving DecidableEq, Repr

/-- An observable transport event: a single register write or a bulk write
of a named register table. -/
inductive Ev where
  | wr (reg : Reg) (val : Nat)
  | multi (table : Table)
  deriving DecidableEq, Repr

/-- The external register/power collaborator: outcome of each single write
(0 = success, negative errno on failure), of each read, the value a read
returns, the outcome of each bulk table write, and the outcome of
`pm_runtime_resume_and_get`. -/
structure Bus where
  writeRet : Reg → Nat → Int
  readRet : Reg → Int
  readVal : Reg → Nat
  multiRet : Table → Int
  resumeRet : Int

/-- The accumulator threaded through chained CCI calls: the first error seen
so far (the `int *err` argument) and the sequence of attempted writes. -/
structure CciAcc where
  ret : Int
  log : List Ev
  deriving Repr

/-- `cci_write(map, reg, val, &ret)`: skipped if the chain already failed,
otherwise the write is attempted and its result recorded. -/
def cci_write (bus : Bus) (reg : Reg) (val : Nat) (acc : CciAcc) : CciAcc :=
  if acc.ret ≠ 0 then acc
  else { ret := bus.writeRet reg val, log := acc.log ++ [Ev.wr reg val] }

/-- `cci_update_bits(map, reg, mask, val, &ret)`: read-modify-write of the
masked field, skipped if the chain already failed. -/
def cci_update_bits (bus : Bus) (reg : Reg) (mask val : Nat) (acc : CciAcc) : CciAcc :=
  if acc.ret ≠ 0 then acc
  else if bus.readRet reg ≠ 0 then { acc with ret := bus.readRet reg }
  else
    let old := bus.readVal reg
    let nv := (old ^^^ (old &&& mask)) ||| (val &&& mask)
    { ret := bus.writeRet reg nv, log := acc.log ++ [Ev.wr reg nv] }

/-- `cci_multi_reg_write(map, table, n, &ret)`: bulk write of a named
register table, skipped if the chain already failed. -/
def cci_multi_reg_write (bus : Bus) (table : Table) (acc : CciAcc) : CciAcc :=
  if acc.ret ≠ 0 then acc
  else { ret := bus.multiRet table, log := acc.log ++ [Ev.multi table] }

/-! ## Timing resolver and register-program builders -/

/-- `ov64a40_get_timings`: looks up the negotiated frequency value stored at
`link_freq_index` and selects the 360M timing variant exactly when that
value equals `OV64A40_LINK_FREQ_360M`, the 456M variant otherwise. -/
def ov64a40_get_timings (link_frequencies : List Int) (mode : Mode)
    (link_freq_index : Nat) : Timings :=
  let link_freq := link_frequencies.getD link_freq_index 0
  let timings_index := if link_freq = OV64A40_LINK_FREQ_360M then 1 else 0
  mode.timingsAt timings_index

/-- `ov64a40_program_geometry`: analogue crop, ISP windowing (digital crop)
and total timings, in the source's write order. -/
def ov64a40_program_geometry (bus : Bus) (mode : Mode)
    (link_frequencies : List Int) (link_freq_cur : Nat) : CciAcc :=
  let anacrop := mode.analogue_crop
  let digicrop := mode.digital_crop
  let acc : CciAcc := { ret := 0, log := [] }
  let acc := cci_write bus Reg.TIMING_CTRL0 anacrop.left acc
  let acc := cci_write bus Reg.TIMING_CTRL2 anacrop.top acc
  let acc := cci_write bus Reg.TIMING_CTRL4 (anacrop.width + anacrop.left - 1) acc
  let acc := cci_write bus Reg.TIMING_CTRL6 (anacrop.height + anacrop.top - 1) acc
  let acc := cci_write bus Reg.TIMING_CTRL10 digicrop.left acc
  let acc := cci_write bus Reg.TIMING_CTRL12 digicrop.top acc
  let acc := cci_write bus Reg.TIMING_CTRL8 digicrop.width acc
  let acc := cci_write bus Reg.TIMING_CTRLA digicrop.height acc
  let timings := ov64a40_get_timings link_frequencies mode link_freq_cur
  let acc := cci_write bus Reg.TIMING_CTRLC timings.ppl acc
  cci_write bus Reg.TIMING_CTRLE timings.vts acc

/-- Modelled from the spec: `OV64A40_SKIPPING_CONFIG(odd, even)` of the
missing `ov64a40_regs.h` packs an odd/even increment pair into one register
field. -/
def OV64A40_SKIPPING_CONFIG (odd even : Nat) : Nat :=
  (odd <<< 4) ||| even

/-- `ov64a40_program_subsampling`: skipping configuration followed by the
read-modify-write binning updates. -/
def ov64a40_program_subsampling (bus : Bus) (mode : Mode) : CciAcc :=
  let s := mode.subsampling
  let acc : CciAcc := { ret := 0, log := [] }
  let acc := cci_write bus Reg.TIMING_CTRL14
    (OV64A40_SKIPPING_CONFIG s.x_odd_inc s.x_even_inc) acc
  let acc := cci_write bus Reg.TIMING_CTRL15
    (OV64A40_SKIPPING_CONFIG s.y_odd_inc s.y_even_inc) acc
  let acc := cci_update_bits bus Reg.TIMING_CTRL_20 OV64A40_TIMING_CTRL_20_VBIN
    (if s.vbin then OV64A40_TIMING_CTRL_20_VBIN else 0) acc
  cci_update_bits bus Reg.TIMING_CTRL_21 OV64A40_TIMING_CTRL_21_HBIN_CONF
    (if s.hbin then OV64A40_TIMING_CTRL_21_HBIN_CONF else 0) acc

/-- `ov64a40_link_freq_config`: the default PLL table is always applied, and
the PLL1-multiplier override is written only when the selected frequency is
the 360 MHz one. -/
def ov64a40_link_freq_config (bus : Bus) (link_frequencies : List Int)
    (link_freq_id : Nat) : CciAcc :=
  let acc := cci_multi_reg_write bus Table.pll_config { ret := 0, log := [] }
  let link_frequency := link_frequencies.getD link_freq_id 0
  if link_frequency = OV64A40_LINK_FREQ_360M then
    cci_write bus Reg.PLL1_MULTIPLIER 0x0078 acc
  else acc

/-! ## Control dependency engine -/

/-- One `v4l2_ctrl`: committed current value, range, default, and the two
framework flags the driver manipulates. -/
structure Ctrl where
  val : Int
  minimum : Int
  maximum : Int
  default_value : Int
  grabbed : Bool
  read_only : Bool
  deriving DecidableEq, Repr

/-- The controls registered by `ov64a40_init_controls`, by id. -/
inductive CtrlId where
  | pixel_rate
  | link_freq
  | test_pattern
  | exposure
  | hblank
  | vblank
  | analogue_gain
  | hflip
  | vflip
  deriving DecidableEq, Repr

/-- The driver-owned control state: active mode, negotiated link
frequencies and the registered controls. -/
structure Dev where
  mode : Mode
  link_frequencies : List Int
  pixel_rate : Ctrl
  link_freq : Ctrl
  test_pattern : Ctrl
  exposure : Ctrl
  hblank : Ctrl
  vblank : Ctrl
  analogue_gain : Ctrl
  hflip : Ctrl
  vflip : Ctrl
  deriving Repr

/-- Control lookup by id. -/
def Dev.ctrlOf (d : Dev) : CtrlId → Ctrl
  | CtrlId.pixel_rate => d.pixel_rate
  | CtrlId.link_freq => d.link_freq
  | CtrlId.test_pattern => d.test_pattern
  | CtrlId.exposure => d.exposure
  | CtrlId.hblank => d.hblank
  | CtrlId.vblank => d.vblank
  | CtrlId.analogue_gain => d.analogue_gain
  | CtrlId.hflip => d.hflip
  | CtrlId.vflip => d.vflip

/-- Commit a control's current value (the framework's commit after a
successful `s_ctrl`). -/
def Dev.setCtrlVal (d : Dev) (id : CtrlId) (v : Int) : Dev :=
  match id with
  | CtrlId.pixel_rate => { d with pixel_rate := { d.pixel_rate with val := v } }
  | CtrlId.link_freq => { d with link_freq := { d.link_freq with val := v } }
  | CtrlId.test_pattern => { d with test_pattern := { d.test_pattern with val := v } }
  | CtrlId.exposure => { d with exposure := { d.exposure with val := v } }
  | CtrlId.hblank => { d with hblank := { d.hblank with val := v } }
  | CtrlId.vblank => { d with vblank := { d.vblank with val := v } }
  | CtrlId.analogue_gain => { d with analogue_gain := { d.analogue_gain with val := v } }
  | CtrlId.hflip => { d with hflip := { d.hflip with val := v } }
  | CtrlId.vflip => { d with vflip := { d.vflip with val := v } }

/-- Modelled from the spec: `__v4l2_ctrl_modify_range` of the control
framework (outside the verified sources) updates a control's range and
default and clamps the current value into the new range. -/
def v4l2_ctrl_modify_range (c : Ctrl) (mn mx df : Int) : Ctrl :=
  { c with minimum := mn, maximum := mx, default_value := df,
           val := min (max c.val mn) mx }

/-- Result of the driver's `s_ctrl` operation: return code, updated driver
state, attempted register writes. -/
structure SetCtrlRes where
  ret : Int
  dev : Dev
  log : List Ev

/-- `ov64a40_set_ctrl`: the driver's `s_ctrl`.  `val` is the new value the
framework passes in `ctrl->val`; `pm_active` is the outcome of
`pm_runtime_get_if_active` (false when the device is powered down, in which
case the value is accepted with no register write).  A `vblank` write first
recomputes the exposure range and clamps the current exposure, before any
power check and before the new blanking value is programmed. -/
def ov64a40_set_ctrl (bus : Bus) (dev : Dev) (id : CtrlId) (val : Int)
    (pm_active : Bool) : SetCtrlRes :=
  let dev :=
    if id = CtrlId.vblank then
      let exp_max : Int := dev.mode.height + val - OV64A40_EXPOSURE_MARGIN
      let exp_val : Int := min dev.exposure.val exp_max
      { dev with exposure :=
          v4l2_ctrl_modify_range dev.exposure dev.exposure.minimum exp_max exp_val }
    else dev
  if pm_active = false then { ret := 0, dev := dev, log := [] }
  else
    match id with
    | CtrlId.exposure =>
        { ret := bus.writeRet Reg.MEC_LONG_EXPO val.toNat, dev := dev,
          log := [Ev.wr Reg.MEC_LONG_EXPO val.toNat] }
    | CtrlId.analogue_gain =>
        { ret := bus.writeRet Reg.MEC_LONG_GAIN (val.toNat <<< 1), dev := dev,
          log := [Ev.wr Reg.MEC_LONG_GAIN (val.toNat <<< 1)] }
    | CtrlId.vblank =>
        let vts : Int := val + dev.mode.height
        let acc := cci_write bus Reg.TIMINGS_VTS_LOW vts.toNat { ret := 0, log := [] }
        let acc := cci_write bus Reg.TIMINGS_VTS_MID (vts.toNat >>> 8) acc
        let acc := cci_write bus Reg.TIMINGS_VTS_HIGH (vts.toNat >>> 16) acc
        { ret := acc.ret, dev := dev, log := acc.log }
    | CtrlId.vflip =>
        let acc := cci_update_bits bus Reg.TIMING_CTRL_20
          OV64A40_TIMING_CTRL_20_VFLIP (val.toNat <<< 2) { ret := 0, log := [] }
        { ret := acc.ret, dev := dev, log := acc.log }
    | CtrlId.hflip =>
        let acc := cci_update_bits bus Reg.TIMING_CTRL_21
          OV64A40_TIMING_CTRL_21_HFLIP
          (if val ≠ 0 then 0 else OV64A40_TIMING_CTRL_21_HFLIP)
          { ret := 0, log := [] }
        { ret := acc.ret, dev := dev, log := acc.log }
    | CtrlId.test_pattern =>
        let v := ov64a40_test_pattern_val.getD val.toNat 0
        { ret := bus.writeRet Reg.TEST_PATTERN v, dev := dev,
          log := [Ev.wr Reg.TEST_PATTERN v] }
    | CtrlId.link_freq =>
        let acc := ov64a40_link_freq_config bus dev.link_frequencies val.toNat
        { ret := acc.ret, dev := dev, log := acc.log }
    | _ => { ret := -EINVAL, dev := dev, log := [] }

/-- Errors a user-facing control write can surface. -/
inductive CtrlWriteErr where
  | controlError
  | ioError
  deriving DecidableEq, Repr

/-- Result of a user-facing control write. -/
structure CtrlWriteRes where
  err : Option CtrlWriteErr
  dev : Dev
  log : List Ev

/-- Modelled from the spec: the control framework's write entry point
(outside the verified sources).  A grabbed or read-only control rejects the
write with device state unchanged, and so does an out-of-range value
(rejected synchronously, device state unchanged); otherwise the driver's
`s_ctrl` runs and on success the new value is committed. -/
def v4l2_s_ctrl (bus : Bus) (dev : Dev) (id : CtrlId) (v : Int)
    (pm_active : Bool) : CtrlWriteRes :=
  let c := dev.ctrlOf id
  if c.grabbed ∨ c.read_only then
    { err := some CtrlWriteErr.controlError, dev := dev, log := [] }
  else if v < c.minimum ∨ c.maximum < v then
    { err := some CtrlWriteErr.controlError, dev := dev, log := [] }
  else
    let r := ov64a40_set_ctrl bus dev id v pm_active
    if r.ret = 0 then { err := none, dev := r.dev.setCtrlVal id v, log := r.log }
    else { err := some CtrlWriteErr.ioError, dev := r.dev, log := r.log }

/-- The writable controls in registration order: `pixel_rate` and `hblank`
are read-only and skipped by the framework's handler setup. -/
def setup_ids : List CtrlId :=
  [CtrlId.link_freq, CtrlId.test_pattern, CtrlId.exposure, CtrlId.vblank,
   CtrlId.analogue_gain, CtrlId.hflip, CtrlId.vflip]

/-- Modelled from the spec: `__v4l2_ctrl_handler_setup` (outside the
verified sources) replays every non-read-only control's current value
through the driver's `s_ctrl` while powered, stopping at the first error. -/
def setup_loop (bus : Bus) : List CtrlId → SetCtrlRes → SetCtrlRes
  | [], acc => acc
  | id :: rest, acc =>
      if acc.ret ≠ 0 then acc
      else
        let r := ov64a40_set_ctrl bus acc.dev id ((acc.dev.ctrlOf id).val) true
        setup_loop bus rest { ret := r.ret, dev := r.dev, log := acc.log ++ r.log }

/-- The full control-handler replay performed at stream start. -/
def ov64a40_ctrl_handler_setup (bus : Bus) (dev : Dev) : SetCtrlRes :=
  setup_loop bus setup_ids { ret := 0, dev := dev, log := [] }

/-- `ov64a40_init_controls` (plus `probe`'s `mode = &ov64a40_modes[0]`
choice of active mode): the initial control ranges and values, derived from
the timings resolved for link-frequency index 0. -/
def ov64a40_init_controls (link_frequencies : List Int) (mode : Mode) : Dev :=
  let timings := ov64a40_get_timings link_frequencies mode 0
  let exp_max : Int := (timings.vts : Int) - OV64A40_EXPOSURE_MARGIN
  let hblank_val : Int := (timings.ppl : Int) * 4 - mode.width
  let vblank_def : Int := (timings.vts : Int) - mode.height
  let vblank_max : Int := OV64A40_VTS_MAX - mode.height
  { mode := mode
    link_frequencies := link_frequencies
    pixel_rate := { val := OV64A40_PIXEL_RATE, minimum := OV64A40_PIXEL_RATE,
                    maximum := OV64A40_PIXEL_RATE,
                    default_value := OV64A40_PIXEL_RATE,
                    grabbed := false, read_only := true }
    link_freq := { val := 0, minimum := 0,
                   maximum := (link_frequencies.length : Int) - 1,
                   default_value := 0, grabbed := false, read_only := false }
    test_pattern := { val := 0, minimum := 0, maximum := 4, default_value := 0,
                      grabbed := false, read_only := false }
    exposure := { val := OV64A40_EXPOSURE_MIN, minimum := OV64A40_EXPOSURE_MIN,
                  maximum := exp_max, default_value := OV64A40_EXPOSURE_MIN,
                  grabbed := false, read_only := false }
    hblank := { val := hblank_val, minimum := hblank_val, maximum := hblank_val,
                default_value := hblank_val, grabbed := false, read_only := true }
    vblank := { val := vblank_def, minimum := OV64A40_VBLANK_MIN,
                maximum := vblank_max, default_value := vblank_def,
                grabbed := false, read_only := false }
    analogue_gain := { val := OV64A40_ANA_GAIN_DEFAULT,
                       minimum := OV64A40_ANA_GAIN_MIN,
                       maximum := OV64A40_ANA_GAIN_MAX,
                       default_value := OV64A40_ANA_GAIN_DEFAULT,
                       grabbed := false, read_only := false }
    hflip := { val := 0, minimum := 0, maximum := 1, default_value := 0,
               grabbed := false, read_only := false }
    vflip := { val := 0, minimum := 0, maximum := 1, default_value := 0,
               grabbed := false, read_only := false } }

/-! ## Streaming sequencer -/

/-- `DIV_ROUND_UP` of the kernel: ceiling division on naturals. -/
def divRoundUp (n d : Nat) : Nat := (n + d - 1) / d

/-- The settle delay computed at the end of `ov64a40_start_streaming`:
`max(DIV_ROUND_UP(4096, xclk_mhz), 150)` plus
`DIV_ROUND_UP(ppl * 4 * exposure, pixel_rate_mhz)` microseconds (the sensor
has an internal x4 multiplier on the line length). -/
def ov64a40_stream_delay (timings : Timings) (exposure_val : Nat) : Nat :=
  let delay := divRoundUp 4096 (OV64A40_XCLK_FREQ / 1000 / 1000)
  let delay := max delay 150
  delay + divRoundUp (timings.ppl * 4 * exposure_val)
            (OV64A40_PIXEL_RATE / 1000 / 1000)

/-- Result of `ov64a40_start_streaming`: return code, driver state, runtime
power usage count, emitted transport events, and the settle delay slept on
success (`none` when the start failed before sleeping). -/
structure StartRes where
  ret : Int
  dev : Dev
  usage : Nat
  log : List Ev
  delay : Option Nat

/-- `ov64a40_start_streaming`: power resume, global init table, mode table,
geometry, subsampling, control replay, streaming bit, control grab, settle
delay.  Every failure after the resume releases the acquired power
reference and returns the failing step's error with the device state
untouched. -/
def ov64a40_start_streaming (bus : Bus) (dev : Dev) (usage : Nat) : StartRes :=
  if bus.resumeRet < 0 then
    { ret := bus.resumeRet, dev := dev, usage := usage, log := [], delay := none }
  else
    let usage := usage + 1
    let log : List Ev := [Ev.multi Table.init_table]
    if bus.multiRet Table.init_table ≠ 0 then
      { ret := bus.multiRet Table.init_table, dev := dev, usage := usage - 1,
        log := log, delay := none }
    else
      let log := log ++ [Ev.multi dev.mode.reglist]
      if bus.multiRet dev.mode.reglist ≠ 0 then
        { ret := bus.multiRet dev.mode.reglist, dev := dev, usage := usage - 1,
          log := log, delay := none }
      else
        let geom := ov64a40_program_geometry bus dev.mode dev.link_frequencies
          dev.link_freq.val.toNat
        let log := log ++ geom.log
        if geom.ret ≠ 0 then
          { ret := geom.ret, dev := dev, usage := usage - 1, log := log,
            delay := none }
        else
          let subs := ov64a40_program_subsampling bus dev.mode
          let log := log ++ subs.log
          if subs.ret ≠ 0 then
            { ret := subs.ret, dev := dev, usage := usage - 1, log := log,
              delay := none }
          else
            let setup := ov64a40_ctrl_handler_setup bus dev
            let dev := setup.dev
            let log := log ++ setup.log
            if setup.ret ≠ 0 then
              { ret := setup.ret, dev := dev, usage := usage - 1, log := log,
                delay := none }
            else
              let log := log ++ [Ev.wr Reg.SMIA OV64A40_REG_SMIA_STREAMING]
              if bus.writeRet Reg.SMIA OV64A40_REG_SMIA_STREAMING ≠ 0 then
                { ret := bus.writeRet Reg.SMIA OV64A40_REG_SMIA_STREAMING,
                  dev := dev, usage := usage - 1, log := log, delay := none }
              else
                let dev := { dev with
                  link_freq := { dev.link_freq with grabbed := true }
                  vflip := { dev.vflip with grabbed := true }
                  hflip := { dev.hflip with grabbed := true } }
                let timings := ov64a40_get_timings dev.link_frequencies dev.mode
                  dev.link_freq.val.toNat
                { ret := 0, dev := dev, usage := usage, log := log,
                  delay := some (ov64a40_stream_delay timings dev.exposure.val.toNat) }

/-- Result of `ov64a40_stop_streaming`. -/
structure StopRes where
  ret : Int
  dev : Dev
  usage : Nat
  log : List Ev

/-- `ov64a40_stop_streaming`: attempts to clear the streaming bit with the
result discarded (the error pointer is NULL and the return value is
ignored), releases the power reference, un-grabs the three grabbed
controls, and returns 0 unconditionally. -/
def ov64a40_stop_streaming (bus : Bus) (dev : Dev) (usage : Nat) : StopRes :=
  let acc := cci_update_bits bus Reg.SMIA 1 0 { ret := 0, log := [] }
  let dev := { dev with
    link_freq := { dev.link_freq with grabbed := false }
    vflip := { dev.vflip with grabbed := false }
    hflip := { dev.hflip with grabbed := false } }
  { ret := 0, dev := dev, usage := usage - 1, log := acc.log }

/-- The per-device state the streaming sequencer transitions: driver state,
runtime power usage count, and whether the device is streaming. -/
structure Sensor where
  dev : Dev
  usage : Nat
  streaming : Bool

/-- Result of `ov64a40_set_stream`. -/
structure StreamRes where
  ret : Int
  sensor : Sensor
  log : List Ev
  delay : Option Nat

/-- `ov64a40_set_stream`: dispatches to start or stop under the state lock;
a successful start marks the device streaming, a stop always marks it
idle. -/
def ov64a40_set_stream (bus : Bus) (s : Sensor) (enable : Bool) : StreamRes :=
  if enable then
    let r := ov64a40_start_streaming bus s.dev s.usage
    { ret := r.ret
      sensor := { dev := r.dev, usage := r.usage,
                  streaming := if r.ret = 0 then true else s.streaming }
      log := r.log
      delay := r.delay }
  else
    let r := ov64a40_stop_streaming bus s.dev s.usage
    { ret := r.ret
      sensor := { dev := r.dev, usage := r.usage, streaming := false }
      log := r.log
      delay := none }

/-! ## Concrete instances used by witnesses -/

/-- A bus on which every transport operation succeeds and every read
returns 0. -/
def okBus : Bus :=
  { writeRet := fun _ _ => 0, readRet := fun _ => 0, readVal := fun _ => 0,
    multiRet := fun _ => 0, resumeRet := 0 }

/-- A bus on which every single register write fails with `-EIO` while
reads, bulk writes and power resume succeed. -/
def writeFailBus : Bus :=
  { writeRet := fun _ _ => -5, readRet := fun _ => 0, readVal := fun _ => 0,
    multiRet := fun _ => 0, resumeRet := 0 }

/-- A bus on which the mode-specific register table write fails with `-EIO`
and everything else succeeds. -/
def modeTableFailBus : Bus :=
  { writeRet := fun _ _ => 0, readRet := fun _ => 0, readVal := fun _ => 0,
    multiRet := fun t => if t = Table.init_table then 0 else -5,
    resumeRet := 0 }

/-- The full-resolution catalogue mode selected at probe time. -/
def mode0 : Mode := ov64a40_modes.headD
  { width := 0, height := 0, timings456 := { vts := 0, ppl := 0 },
    timings360 := { vts := 0, ppl := 0 }, reglist := Table.init_table,
    analogue_crop := { left := 0, top := 0, width := 0, height := 0 },
    digital_crop := { left := 0, top := 0, width := 0, height := 0 },
    subsampling := { x_odd_inc := 0, x_even_inc := 0, y_odd_inc := 0,
                     y_even_inc := 0, vbin := false, hbin := false } }

/-- The driver state right after probe with both link frequencies
negotiated. -/
def dev0 : Dev :=
  ov64a40_init_controls [OV64A40_LINK_FREQ_456M, OV64A40_LINK_FREQ_360M] mode0

/-- The idle sensor right after probe. -/
def sensor0 : Sensor := { dev := dev0, usage := 0, streaming := false }

/-- A driver state with the three mode-latched controls grabbed, as after a
successful stream start. -/
def devGrabbed : Dev :=
  { dev0 with
    link_freq := { dev0.link_freq with grabbed := true }
    vflip := { dev0.vflip with grabbed := true }
    hflip := { dev0.hflip with grabbed := true } }

/-! ## Helper lemmas -/

/-- `ov64a40_set_ctrl` changes the driver state only through the
vblank-triggered exposure-range recomputation. -/
lemma set_ctrl_dev_eq (bus : Bus) (d : Dev) (id : CtrlId) (v : Int) (pm : Bool) :
    (ov64a40_set_ctrl bus d id v pm).dev =
      if id = CtrlId.vblank then
        { d with exposure := (v4l2_ctrl_modify_range d.exposure d.exposure.minimum
            ((d.mode.height : Int) + v - OV64A40_EXPOSURE_MARGIN)
            (min d.exposure.val ((d.mode.height : Int) + v - OV64A40_EXPOSURE_MARGIN))) }
      else d := by
  cases id <;> cases pm <;> simp [ov64a40_set_ctrl]

/-- `ov64a40_set_ctrl` never touches the mode, the negotiated frequencies or
any control other than exposure. -/
lemma set_ctrl_preserves (bus : Bus) (d : Dev) (id : CtrlId) (v : Int) (pm : Bool) :
    (ov64a40_set_ctrl bus d id v pm).dev.mode = d.mode ∧
    (ov64a40_set_ctrl bus d id v pm).dev.link_frequencies = d.link_frequencies ∧
    (ov64a40_set_ctrl bus d id v pm).dev.link_freq = d.link_freq ∧
    (ov64a40_set_ctrl bus d id v pm).dev.vflip = d.vflip ∧
    (ov64a40_set_ctrl bus d id v pm).dev.hflip = d.hflip ∧
    (ov64a40_set_ctrl bus d id v pm).dev.vblank = d.vblank := by
  rw [set_ctrl_dev_eq]
  split <;> simp

/-- The handler-setup replay never touches the mode, the negotiated
frequencies, the link-frequency control or the flip controls. -/
lemma setup_loop_preserves (bus : Bus) (ids : List CtrlId) (acc : SetCtrlRes) :
    (setup_loop bus ids acc).dev.mode = acc.dev.mode ∧
    (setup_loop bus ids acc).dev.link_frequencies = acc.dev.link_frequencies ∧
    (setup_loop bus ids acc).dev.link_freq = acc.dev.link_freq ∧
    (setup_loop bus ids acc).dev.vflip = acc.dev.vflip ∧
    (setup_loop bus ids acc).dev.hflip = acc.dev.hflip ∧
    (setup_loop bus ids acc).dev.vblank = acc.dev.vblank := by
  induction ids generalizing acc with
  | nil => simp [setup_loop]
  | cons id rest ih =>
      simp only [setup_loop]
      split
      · exact ⟨rfl, rfl, rfl, rfl, rfl, rfl⟩
      · have hstep := set_ctrl_preserves bus acc.dev id ((acc.dev.ctrlOf id).val) true
        have htail := ih ⟨(ov64a40_set_ctrl bus acc.dev id ((acc.dev.ctrlOf id).val) true).ret,
          (ov64a40_set_ctrl bus acc.dev id ((acc.dev.ctrlOf id).val) true).dev,
          acc.log ++ (ov64a40_set_ctrl bus acc.dev id ((acc.dev.ctrlOf id).val) true).log⟩
        exact ⟨htail.1.trans hstep.1, htail.2.1.trans hstep.2.1,
               htail.2.2.1.trans hstep.2.2.1, htail.2.2.2.1.trans hstep.2.2.2.1,
               htail.2.2.2.2.1.trans hstep.2.2.2.2.1, htail.2.2.2.2.2.trans hstep.2.2.2.2.2⟩

/-- The full control-handler replay preserves mode, frequencies and the
mode-latched controls. -/
lemma handler_setup_preserves (bus : Bus) (d : Dev) :
    (ov64a40_ctrl_handler_setup bus d).dev.mode = d.mode ∧
    (ov64a40_ctrl_handler_setup bus d).dev.link_frequencies = d.link_frequencies ∧
    (ov64a40_ctrl_handler_setup bus d).dev.link_freq = d.link_freq ∧
    (ov64a40_ctrl_handler_setup bus d).dev.vflip = d.vflip ∧
    (ov64a40_ctrl_handler_setup bus d).dev.hflip = d.hflip ∧
    (ov64a40_ctrl_handler_setup bus d).dev.vblank = d.vblank :=
  setup_loop_preserves bus setup_ids { ret := 0, dev := d, log := [] }

/-- A masked read-modify-write against a single-bit mask (bit 2) leaves
exactly the masked part of the inserted value in the field. -/
lemma masked_update_bit (old x : Nat) (hx : x = 0 ∨ x = 4) :
    ((old ^^^ (old &&& 4)) ||| x) &&& 4 = x := by
  rcases hx with h | h <;> subst h <;>
    refine Nat.eq_of_testBit_eq fun i => ?_ <;>
    cases h4 : Nat.testBit 4 i <;>
    simp [Nat.testBit_land, Nat.testBit_lor, Nat.testBit_xor, h4]

/-- Clearing a single-bit mask leaves the masked field zero. -/
lemma xor_masked_zero (old : Nat) : (old ^^^ (old &&& 4)) &&& 4 = 0 := by
  refine Nat.eq_of_testBit_eq fun i => ?_
  cases h4 : Nat.testBit 4 i <;>
    simp [Nat.testBit_land, Nat.testBit_xor, h4]

/-! ## Claim theorems -/

/-- C6: for every mode and in-bounds link-frequency index the timing
resolver returns the reduced (360 MHz) variant exactly when the negotiated
frequency value stored at that index equals the 360 MHz constant and the
fast (456 MHz) variant otherwise, and the selection depends only on the
frequency value, not on the index position. -/
theorem get_timings_selects_by_value (freqs : List Int) (mode : Mode) (i : Nat)
    (hi : i < freqs.length) :
    ov64a40_get_timings freqs mode i =
      (if freqs.getD i 0 = OV64A40_LINK_FREQ_360M then mode.timings360
       else mode.timings456) ∧
    ∀ j, j < freqs.length → freqs.getD j 0 = freqs.getD i 0 →
      ov64a40_get_timings freqs mode j = ov64a40_get_timings freqs mode i := by
  constructor
  · simp only [ov64a40_get_timings]
    split <;> rfl
  · intro j hj hEq
    simp only [ov64a40_get_timings, hEq]

/-- Witness for C6 at index 1 of the two-frequency list: the stored value
is the 360 MHz constant, so the reduced variant is selected. -/
theorem get_timings_selects_by_value_witness :
    1 < ([OV64A40_LINK_FREQ_456M, OV64A40_LINK_FREQ_360M] : List Int).length ∧
    (ov64a40_get_timings [OV64A40_LINK_FREQ_456M, OV64A40_LINK_FREQ_360M] mode0 1 =
      (if ([OV64A40_LINK_FREQ_456M, OV64A40_LINK_FREQ_360M] : List Int).getD 1 0 =
          OV64A40_LINK_FREQ_360M then mode0.timings360
       else mode0.timings456) ∧
    ∀ j, j < ([OV64A40_LINK_FREQ_456M, OV64A40_LINK_FREQ_360M] : List Int).length →
      ([OV64A40_LINK_FREQ_456M, OV64A40_LINK_FREQ_360M] : List Int).getD j 0 =
        ([OV64A40_LINK_FREQ_456M, OV64A40_LINK_FREQ_360M] : List Int).getD 1 0 →
      ov64a40_get_timings [OV64A40_LINK_FREQ_456M, OV64A40_LINK_FREQ_360M] mode0 j =
        ov64a40_get_timings [OV64A40_LINK_FREQ_456M, OV64A40_LINK_FREQ_360M] mode0 1) :=
  ⟨by decide, get_timings_selects_by_value _ mode0 1 (by decide)⟩

/-- C7: for every mode and resolved timing the geometry program emits, in
order, the analogue-crop left/top/(left+width-1)/(top+height-1) writes, the
digital-crop left/top/width/height writes, the total line length and the
total frame lines. -/
theorem program_geometry_write_sequence (bus : Bus) (mode : Mode)
    (freqs : List Int) (v : Nat)
    (hbus : ∀ r x, bus.writeRet r x = 0) :
    (ov64a40_program_geometry bus mode freqs v).log =
      [Ev.wr Reg.TIMING_CTRL0 mode.analogue_crop.left,
       Ev.wr Reg.TIMING_CTRL2 mode.analogue_crop.top,
       Ev.wr Reg.TIMING_CTRL4 (mode.analogue_crop.left + mode.analogue_crop.width - 1),
       Ev.wr Reg.TIMING_CTRL6 (mode.analogue_crop.top + mode.analogue_crop.height - 1),
       Ev.wr Reg.TIMING_CTRL10 mode.digital_crop.left,
       Ev.wr Reg.TIMING_CTRL12 mode.digital_crop.top,
       Ev.wr Reg.TIMING_CTRL8 mode.digital_crop.width,
       Ev.wr Reg.TIMING_CTRLA mode.digital_crop.height,
       Ev.wr Reg.TIMING_CTRLC (ov64a40_get_timings freqs mode v).ppl,
       Ev.wr Reg.TIMING_CTRLE (ov64a40_get_timings freqs mode v).vts] := by
  simp [ov64a40_program_geometry, cci_write, hbus, Nat.add_comm]

/-- Witness for C7 on the all-success bus with the full-resolution mode. -/
theorem program_geometry_write_sequence_witness :
    (∀ r x, okBus.writeRet r x = 0) ∧
    (ov64a40_program_geometry okBus mode0
        [OV64A40_LINK_FREQ_456M, OV64A40_LINK_FREQ_360M] 0).log =
      [Ev.wr Reg.TIMING_CTRL0 mode0.analogue_crop.left,
       Ev.wr Reg.TIMING_CTRL2 mode0.analogue_crop.top,
       Ev.wr Reg.TIMING_CTRL4 (mode0.analogue_crop.left + mode0.analogue_crop.width - 1),
       Ev.wr Reg.TIMING_CTRL6 (mode0.analogue_crop.top + mode0.analogue_crop.height - 1),
       Ev.wr Reg.TIMING_CTRL10 mode0.digital_crop.left,
       Ev.wr Reg.TIMING_CTRL12 mode0.digital_crop.top,
       Ev.wr Reg.TIMING_CTRL8 mode0.digital_crop.width,
       Ev.wr Reg.TIMING_CTRLA mode0.digital_crop.height,
       Ev.wr Reg.TIMING_CTRLC (ov64a40_get_timings
         [OV64A40_LINK_FREQ_456M, OV64A40_LINK_FREQ_360M] mode0 0).ppl,
       Ev.wr Reg.TIMING_CTRLE (ov64a40_get_timings
         [OV64A40_LINK_FREQ_456M, OV64A40_LINK_FREQ_360M] mode0 0).vts] :=
  ⟨fun _ _ => rfl,
   program_geometry_write_sequence okBus mode0
     [OV64A40_LINK_FREQ_456M, OV64A40_LINK_FREQ_360M] 0 (fun _ _ => rfl)⟩

/-- C8: for every catalogue mode and both link-frequency ids the default
timing satisfies `vts ≥ height + 1`, and the derived exposure maximum
`vts - EXPOSURE_MARGIN` is at least `EXPOSURE_MIN`. -/
theorem mode_timings_invariant (m : Mode) (hm : m ∈ ov64a40_modes)
    (i : Nat) (hi : i < 2) :
    m.height + 1 ≤ (m.timingsAt i).vts ∧
    OV64A40_EXPOSURE_MIN ≤ ((m.timingsAt i).vts : Int) - OV64A40_EXPOSURE_MARGIN := by
  simp only [ov64a40_modes, List.mem_cons, List.not_mem_nil, or_false] at hm
  interval_cases i <;>
    rcases hm with h | h | h | h | h | h <;> subst h <;> decide

/-- Witness for C8 on the full-resolution mode at link-frequency id 0. -/
theorem mode_timings_invariant_witness :
    mode0 ∈ ov64a40_modes ∧ 0 < 2 ∧
    (mode0.height + 1 ≤ (mode0.timingsAt 0).vts ∧
     OV64A40_EXPOSURE_MIN ≤ ((mode0.timingsAt 0).vts : Int) - OV64A40_EXPOSURE_MARGIN) :=
  ⟨by decide, by decide, mode_timings_invariant mode0 (by decide) 0 (by decide)⟩

/-- C10: a horizontal-flip write applied while powered updates the HFLIP
field of `TIMING_CTRL_21` with inverted polarity: the register field ends up
cleared for a requested value of 1 and set for a requested value of 0, so
the register bit never equals the control value. -/
theorem hflip_inverted_polarity (bus : Bus) (dev : Dev) (v : Int)
    (hv : v = 0 ∨ v = 1) (hread : bus.readRet Reg.TIMING_CTRL_21 = 0) :
    ∃ w, (ov64a40_set_ctrl bus dev CtrlId.hflip v true).log =
        [Ev.wr Reg.TIMING_CTRL_21 w] ∧
      w &&& OV64A40_TIMING_CTRL_21_HFLIP =
        (if v = 1 then 0 else OV64A40_TIMING_CTRL_21_HFLIP) ∧
      (if w &&& OV64A40_TIMING_CTRL_21_HFLIP = 0 then (0 : Int) else 1) = 1 - v ∧
      (if w &&& OV64A40_TIMING_CTRL_21_HFLIP = 0 then (0 : Int) else 1) ≠ v := by
  refine ⟨(bus.readVal Reg.TIMING_CTRL_21 ^^^
      (bus.readVal Reg.TIMING_CTRL_21 &&& OV64A40_TIMING_CTRL_21_HFLIP)) |||
    ((if v ≠ 0 then 0 else OV64A40_TIMING_CTRL_21_HFLIP) &&&
      OV64A40_TIMING_CTRL_21_HFLIP), ?_, ?_, ?_, ?_⟩ <;>
    rcases hv with h | h <;> subst h <;>
    simp [ov64a40_set_ctrl, cci_update_bits, hread, OV64A40_TIMING_CTRL_21_HFLIP,
      masked_update_bit, xor_masked_zero]

/-- Witness for C10: a flip request of 1 on the all-success bus ends with
the HFLIP register field cleared. -/
theorem hflip_inverted_polarity_witness :
    ((1 : Int) = 0 ∨ (1 : Int) = 1) ∧ okBus.readRet Reg.TIMING_CTRL_21 = 0 ∧
    ∃ w, (ov64a40_set_ctrl okBus dev0 CtrlId.hflip 1 true).log =
        [Ev.wr Reg.TIMING_CTRL_21 w] ∧
      w &&& OV64A40_TIMING_CTRL_21_HFLIP =
        (if (1 : Int) = 1 then 0 else OV64A40_TIMING_CTRL_21_HFLIP) ∧
      (if w &&& OV64A40_TIMING_CTRL_21_HFLIP = 0 then (0 : Int) else 1) = 1 - 1 ∧
      (if w &&& OV64A40_TIMING_CTRL_21_HFLIP = 0 then (0 : Int) else 1) ≠ 1 :=
  ⟨Or.inr rfl, rfl, hflip_inverted_polarity okBus dev0 1 (Or.inr rfl) rfl⟩

/-- C1: a write of `v` to the vertical-blank control recomputes the
exposure maximum to `mode.height + v - EXPOSURE_MARGIN` and lowers the
current exposure to that maximum if it exceeds it, before the new blanking
value is committed; writing the default blanking (`vts - mode.height`)
restores the original exposure maximum (`vts - EXPOSURE_MARGIN`). -/
theorem vblank_write_recomputes_exposure (bus : Bus) (dev : Dev) (v : Int)
    (pm : Bool)
    (hg : dev.vblank.grabbed = false) (hro : dev.vblank.read_only = false)
    (hmin : dev.vblank.minimum ≤ v) (hmax : v ≤ dev.vblank.maximum)
    (hexp : dev.exposure.minimum ≤ dev.exposure.val) :
    (v4l2_s_ctrl bus dev CtrlId.vblank v pm).dev.exposure.maximum =
        (dev.mode.height : Int) + v - OV64A40_EXPOSURE_MARGIN ∧
    (v4l2_s_ctrl bus dev CtrlId.vblank v pm).dev.exposure.val =
        min dev.exposure.val ((dev.mode.height : Int) + v - OV64A40_EXPOSURE_MARGIN) ∧
    ((v4l2_s_ctrl bus dev CtrlId.vblank v pm).err = none →
        (v4l2_s_ctrl bus dev CtrlId.vblank v pm).dev.vblank.val = v) ∧
    ∀ timings : Timings,
      v = (timings.vts : Int) - dev.mode.height →
      dev.exposure.maximum = (timings.vts : Int) - OV64A40_EXPOSURE_MARGIN →
      (v4l2_s_ctrl bus dev CtrlId.vblank v pm).dev.exposure.maximum =
        dev.exposure.maximum := by
  have hmax2 : max dev.exposure.val dev.exposure.minimum = dev.exposure.val :=
    max_eq_left hexp
  simp only [v4l2_s_ctrl, Dev.ctrlOf]
  rw [if_neg (by simp [hg, hro])]
  rw [if_neg (by omega)]
  split
  · refine ⟨?_, ?_, ?_, ?_⟩
    · simp [set_ctrl_dev_eq, Dev.setCtrlVal, v4l2_ctrl_modify_range]
    · simp [set_ctrl_dev_eq, Dev.setCtrlVal, v4l2_ctrl_modify_range, hmax2]
    · intro _
      simp [set_ctrl_dev_eq, Dev.setCtrlVal, v4l2_ctrl_modify_range]
    · intro t h1 h2
      subst h1
      rw [h2]
      simp [set_ctrl_dev_eq, Dev.setCtrlVal, v4l2_ctrl_modify_range]
  · refine ⟨?_, ?_, ?_, ?_⟩
    · simp [set_ctrl_dev_eq, v4l2_ctrl_modify_range]
    · simp [set_ctrl_dev_eq, v4l2_ctrl_modify_range, hmax2]
    · intro h
      simp at h
    · intro t h1 h2
      subst h1
      rw [h2]
      simp [set_ctrl_dev_eq, v4l2_ctrl_modify_range]

/-- Witness for C1: on the just-probed device, writing the default blanking
value 128 leaves the exposure maximum at its original `7072 - 32 = 7040`. -/
theorem vblank_write_recomputes_exposure_witness :
    dev0.vblank.grabbed = false ∧ dev0.vblank.read_only = false ∧
    dev0.vblank.minimum ≤ 128 ∧ (128 : Int) ≤ dev0.vblank.maximum ∧
    dev0.exposure.minimum ≤ dev0.exposure.val ∧
    ((v4l2_s_ctrl okBus dev0 CtrlId.vblank 128 false).dev.exposure.maximum =
        (dev0.mode.height : Int) + 128 - OV64A40_EXPOSURE_MARGIN ∧
     (v4l2_s_ctrl okBus dev0 CtrlId.vblank 128 false).dev.exposure.val =
        min dev0.exposure.val ((dev0.mode.height : Int) + 128 - OV64A40_EXPOSURE_MARGIN) ∧
     ((v4l2_s_ctrl okBus dev0 CtrlId.vblank 128 false).err = none →
        (v4l2_s_ctrl okBus dev0 CtrlId.vblank 128 false).dev.vblank.val = 128) ∧
     ∀ timings : Timings,
       (128 : Int) = (timings.vts : Int) - dev0.mode.height →
       dev0.exposure.maximum = (timings.vts : Int) - OV64A40_EXPOSURE_MARGIN →
       (v4l2_s_ctrl okBus dev0 CtrlId.vblank 128 false).dev.exposure.maximum =
         dev0.exposure.maximum) :=
  ⟨rfl, rfl, by decide, by decide, by decide,
   vblank_write_recomputes_exposure okBus dev0 128 false rfl rfl
     (by decide) (by decide) (by decide)⟩


/-- The committed value of the written control. -/
lemma ctrlOf_setCtrlVal_val (d : Dev) (id : CtrlId) (v : Int) :
    ((d.setCtrlVal id v).ctrlOf id).val = v := by
  cases id <;> simp [Dev.setCtrlVal, Dev.ctrlOf]

/-- Committing the vblank value does not touch the exposure control. -/
lemma setCtrlVal_vblank_exposure (d : Dev) (v : Int) :
    (d.setCtrlVal CtrlId.vblank v).exposure = d.exposure := by
  simp [Dev.setCtrlVal]

/-- C4 counterexample: with a bus on which the streaming-bit clear fails
with `-EIO`, `ov64a40_stop_streaming` attempts the clear but still returns
success, so the register-clear failure is not reported to the caller. -/
theorem stop_streaming_swallows_clear_error :
    (ov64a40_stop_streaming writeFailBus devGrabbed 1).ret = 0 ∧
    (ov64a40_stop_streaming writeFailBus devGrabbed 1).log = [Ev.wr Reg.SMIA 0] ∧
    writeFailBus.writeRet Reg.SMIA 0 = -5 := by
  refine ⟨rfl, ?_, rfl⟩
  decide

/-- C4 (amended): stop_streaming always releases the power reference and
un-grabs the link-frequency, vflip and hflip controls, even when the
streaming-bit clear fails; the clear's result is discarded and stop returns
success unconditionally. -/
theorem stop_streaming_releases_resources (bus : Bus) (dev : Dev) (usage : Nat) :
    (ov64a40_stop_streaming bus dev usage).ret = 0 ∧
    (ov64a40_stop_streaming bus dev usage).usage = usage - 1 ∧
    (ov64a40_stop_streaming bus dev usage).dev.link_freq.grabbed = false ∧
    (ov64a40_stop_streaming bus dev usage).dev.vflip.grabbed = false ∧
    (ov64a40_stop_streaming bus dev usage).dev.hflip.grabbed = false := by
  simp [ov64a40_stop_streaming]

/-- C9: a control write while the device is unpowered succeeds with no
register write, the value is stored, a vertical-blank write still
recomputes the exposure range, and a successful stream start replays all
current control values through the control-handler setup step. -/
theorem unpowered_ctrl_write_cached (bus : Bus) (dev : Dev) (id : CtrlId)
    (v : Int) (bus2 : Bus) (dev2 : Dev) (usage2 : Nat)
    (hg : (dev.ctrlOf id).grabbed = false)
    (hro : (dev.ctrlOf id).read_only = false)
    (hmin : (dev.ctrlOf id).minimum ≤ v) (hmax : v ≤ (dev.ctrlOf id).maximum)
    (hstart : (ov64a40_start_streaming bus2 dev2 usage2).ret = 0) :
    (v4l2_s_ctrl bus dev id v false).err = none ∧
    (v4l2_s_ctrl bus dev id v false).log = [] ∧
    ((v4l2_s_ctrl bus dev id v false).dev.ctrlOf id).val = v ∧
    (id = CtrlId.vblank →
      (v4l2_s_ctrl bus dev id v false).dev.exposure.maximum =
        (dev.mode.height : Int) + v - OV64A40_EXPOSURE_MARGIN) ∧
    (ov64a40_start_streaming bus2 dev2 usage2).log =
      Ev.multi Table.init_table :: Ev.multi dev2.mode.reglist ::
        ((ov64a40_program_geometry bus2 dev2.mode dev2.link_frequencies
            dev2.link_freq.val.toNat).log ++
         (ov64a40_program_subsampling bus2 dev2.mode).log ++
         (ov64a40_ctrl_handler_setup bus2 dev2).log ++
         [Ev.wr Reg.SMIA OV64A40_REG_SMIA_STREAMING]) := by
  have hrange : ¬ (v < (dev.ctrlOf id).minimum ∨ (dev.ctrlOf id).maximum < v) := by
    omega
  have hwrite :
      v4l2_s_ctrl bus dev id v false =
        { err := none,
          dev := (ov64a40_set_ctrl bus dev id v false).dev.setCtrlVal id v,
          log := [] } := by
    cases id <;>
      simp_all [v4l2_s_ctrl, ov64a40_set_ctrl, Dev.ctrlOf]
  refine ⟨by rw [hwrite], by rw [hwrite], ?_, ?_, ?_⟩
  · rw [hwrite]
    exact ctrlOf_setCtrlVal_val _ id v
  · intro hid
    subst hid
    rw [hwrite, setCtrlVal_vblank_exposure, set_ctrl_dev_eq]
    simp [v4l2_ctrl_modify_range]
  · simp only [ov64a40_start_streaming] at hstart ⊢
    split_ifs at hstart ⊢ <;> simp_all


/-- A successful stream start leaves the three mode-latched controls
grabbed and keeps the acquired power reference. -/
lemma start_success_state (bus : Bus) (dev : Dev) (usage : Nat)
    (h : (ov64a40_start_streaming bus dev usage).ret = 0) :
    (ov64a40_start_streaming bus dev usage).dev.link_freq.grabbed = true ∧
    (ov64a40_start_streaming bus dev usage).dev.vflip.grabbed = true ∧
    (ov64a40_start_streaming bus dev usage).dev.hflip.grabbed = true ∧
    (ov64a40_start_streaming bus dev usage).dev.link_freq.val = dev.link_freq.val ∧
    (ov64a40_start_streaming bus dev usage).dev.link_freq.read_only = dev.link_freq.read_only ∧
    (ov64a40_start_streaming bus dev usage).usage = usage + 1 := by
  obtain ⟨-, -, hl, hv, hh, -⟩ := handler_setup_preserves bus dev
  simp only [ov64a40_start_streaming] at h ⊢
  split_ifs at h ⊢ <;> simp_all

/-- A failed stream start (with the power resume itself succeeding)
restores the power usage count and leaves every grabbed flag as it was. -/
lemma start_fail_state (bus : Bus) (dev : Dev) (usage : Nat)
    (hres : ¬ bus.resumeRet < 0)
    (hfail : (ov64a40_start_streaming bus dev usage).ret ≠ 0) :
    (ov64a40_start_streaming bus dev usage).usage = usage ∧
    (ov64a40_start_streaming bus dev usage).dev.link_freq.grabbed =
      dev.link_freq.grabbed ∧
    (ov64a40_start_streaming bus dev usage).dev.vflip.grabbed =
      dev.vflip.grabbed ∧
    (ov64a40_start_streaming bus dev usage).dev.hflip.grabbed =
      dev.hflip.grabbed := by
  obtain ⟨-, -, hl, hv, hh, -⟩ := handler_setup_preserves bus dev
  simp only [ov64a40_start_streaming] at hfail ⊢
  rw [if_neg hres] at hfail ⊢
  split_ifs at hfail ⊢ <;> simp_all

/-- C3: when any stream-start step from the global-initialization write
through the streaming-bit write fails, the sequencer releases the acquired
power reference, surfaces the failing step's error, and stays idle with no
controls grabbed. -/
theorem start_streaming_failure_cleanup (bus : Bus) (s : Sensor)
    (hstr : s.streaming = false)
    (hg1 : s.dev.link_freq.grabbed = false)
    (hg2 : s.dev.vflip.grabbed = false)
    (hg3 : s.dev.hflip.grabbed = false)
    (hres : ¬ bus.resumeRet < 0)
    (hfail : (ov64a40_set_stream bus s true).ret ≠ 0) :
    (ov64a40_set_stream bus s true).sensor.usage = s.usage ∧
    (ov64a40_set_stream bus s true).sensor.streaming = false ∧
    (ov64a40_set_stream bus s true).sensor.dev.link_freq.grabbed = false ∧
    (ov64a40_set_stream bus s true).sensor.dev.vflip.grabbed = false ∧
    (ov64a40_set_stream bus s true).sensor.dev.hflip.grabbed = false ∧
    (bus.multiRet Table.init_table = 0 → bus.multiRet s.dev.mode.reglist ≠ 0 →
      (ov64a40_set_stream bus s true).ret = bus.multiRet s.dev.mode.reglist) := by
  have hfail2 : (ov64a40_start_streaming bus s.dev s.usage).ret ≠ 0 := by
    simpa [ov64a40_set_stream] using hfail
  obtain ⟨hu, hl, hv, hh⟩ := start_fail_state bus s.dev s.usage hres hfail2
  refine ⟨?_, ?_, ?_, ?_, ?_, ?_⟩
  · simpa [ov64a40_set_stream] using hu
  · simp [ov64a40_set_stream, if_neg hfail2, hstr]
  · simpa [ov64a40_set_stream, hg1] using hl
  · simpa [ov64a40_set_stream, hg2] using hv
  · simpa [ov64a40_set_stream, hg3] using hh
  · intro hi hm
    simp only [ov64a40_set_stream, ov64a40_start_streaming, if_true]
    rw [if_neg hres]
    rw [if_neg (by simp [hi])]
    rw [if_pos hm]

/-- Witness for C3: a failing mode-table write on an idle just-probed
sensor releases power, stays idle and un-grabbed, and surfaces `-EIO`. -/
theorem start_streaming_failure_cleanup_witness :
    sensor0.streaming = false ∧
    sensor0.dev.link_freq.grabbed = false ∧
    sensor0.dev.vflip.grabbed = false ∧
    sensor0.dev.hflip.grabbed = false ∧
    (¬ modeTableFailBus.resumeRet < 0) ∧
    (ov64a40_set_stream modeTableFailBus sensor0 true).ret ≠ 0 ∧
    ((ov64a40_set_stream modeTableFailBus sensor0 true).sensor.usage = sensor0.usage ∧
     (ov64a40_set_stream modeTableFailBus sensor0 true).sensor.streaming = false ∧
     (ov64a40_set_stream modeTableFailBus sensor0 true).sensor.dev.link_freq.grabbed = false ∧
     (ov64a40_set_stream modeTableFailBus sensor0 true).sensor.dev.vflip.grabbed = false ∧
     (ov64a40_set_stream modeTableFailBus sensor0 true).sensor.dev.hflip.grabbed = false ∧
     (modeTableFailBus.multiRet Table.init_table = 0 →
      modeTableFailBus.multiRet sensor0.dev.mode.reglist ≠ 0 →
      (ov64a40_set_stream modeTableFailBus sensor0 true).ret =
        modeTableFailBus.multiRet sensor0.dev.mode.reglist)) :=
  ⟨rfl, rfl, rfl, rfl, by decide, by decide,
   start_streaming_failure_cleanup modeTableFailBus sensor0 rfl rfl rfl rfl
     (by decide) (by decide)⟩

/-- C5: after a successful stream start the link-frequency, vflip and hflip
controls are grabbed, every write to them fails with a control error and
changes nothing; the same (in-range) writes succeed while idle; and a
following stream stop clears all three grabbed flags. -/
theorem grabbed_controls_while_streaming (bus bus2 : Bus) (s : Sensor)
    (v : Int) (pm : Bool)
    (hg1 : s.dev.link_freq.grabbed = false)
    (hg2 : s.dev.vflip.grabbed = false)
    (hg3 : s.dev.hflip.grabbed = false)
    (hro1 : s.dev.link_freq.read_only = false)
    (hro2 : s.dev.vflip.read_only = false)
    (hro3 : s.dev.hflip.read_only = false)
    (hv1 : s.dev.link_freq.minimum ≤ v) (hv2 : v ≤ s.dev.link_freq.maximum)
    (hv3 : s.dev.vflip.minimum ≤ v) (hv4 : v ≤ s.dev.vflip.maximum)
    (hv5 : s.dev.hflip.minimum ≤ v) (hv6 : v ≤ s.dev.hflip.maximum)
    (hsucc : (ov64a40_set_stream bus s true).ret = 0) :
    (ov64a40_set_stream bus s true).sensor.streaming = true ∧
    (v4l2_s_ctrl bus2 (ov64a40_set_stream bus s true).sensor.dev
        CtrlId.link_freq v pm).err = some CtrlWriteErr.controlError ∧
    (v4l2_s_ctrl bus2 (ov64a40_set_stream bus s true).sensor.dev
        CtrlId.link_freq v pm).dev = (ov64a40_set_stream bus s true).sensor.dev ∧
    (v4l2_s_ctrl bus2 (ov64a40_set_stream bus s true).sensor.dev
        CtrlId.vflip v pm).err = some CtrlWriteErr.controlError ∧
    (v4l2_s_ctrl bus2 (ov64a40_set_stream bus s true).sensor.dev
        CtrlId.vflip v pm).dev = (ov64a40_set_stream bus s true).sensor.dev ∧
    (v4l2_s_ctrl bus2 (ov64a40_set_stream bus s true).sensor.dev
        CtrlId.hflip v pm).err = some CtrlWriteErr.controlError ∧
    (v4l2_s_ctrl bus2 (ov64a40_set_stream bus s true).sensor.dev
        CtrlId.hflip v pm).dev = (ov64a40_set_stream bus s true).sensor.dev ∧
    (v4l2_s_ctrl bus2 s.dev CtrlId.link_freq v false).err = none ∧
    (v4l2_s_ctrl bus2 s.dev CtrlId.vflip v false).err = none ∧
    (v4l2_s_ctrl bus2 s.dev CtrlId.hflip v false).err = none ∧
    (ov64a40_set_stream bus2 (ov64a40_set_stream bus s true).sensor
        false).sensor.dev.link_freq.grabbed = false ∧
    (ov64a40_set_stream bus2 (ov64a40_set_stream bus s true).sensor
        false).sensor.dev.vflip.grabbed = false ∧
    (ov64a40_set_stream bus2 (ov64a40_set_stream bus s true).sensor
        false).sensor.dev.hflip.grabbed = false := by
  have hsucc2 : (ov64a40_start_streaming bus s.dev s.usage).ret = 0 := by
    simpa [ov64a40_set_stream] using hsucc
  obtain ⟨hl, hv, hh, -, -, -⟩ := start_success_state bus s.dev s.usage hsucc2
  refine ⟨?_, ?_, ?_, ?_, ?_, ?_, ?_, ?_, ?_, ?_, ?_, ?_, ?_⟩
  · simp [ov64a40_set_stream, hsucc2]
  · simp [ov64a40_set_stream, v4l2_s_ctrl, Dev.ctrlOf, hl]
  · simp [ov64a40_set_stream, v4l2_s_ctrl, Dev.ctrlOf, hl]
  · simp [ov64a40_set_stream, v4l2_s_ctrl, Dev.ctrlOf, hv]
  · simp [ov64a40_set_stream, v4l2_s_ctrl, Dev.ctrlOf, hv]
  · simp [ov64a40_set_stream, v4l2_s_ctrl, Dev.ctrlOf, hh]
  · simp [ov64a40_set_stream, v4l2_s_ctrl, Dev.ctrlOf, hh]
  · simp only [v4l2_s_ctrl, Dev.ctrlOf]
    rw [if_neg (by simp [hg1, hro1]), if_neg (by omega)]
    simp [ov64a40_set_ctrl]
  · simp only [v4l2_s_ctrl, Dev.ctrlOf]
    rw [if_neg (by simp [hg2, hro2]), if_neg (by omega)]
    simp [ov64a40_set_ctrl]
  · simp only [v4l2_s_ctrl, Dev.ctrlOf]
    rw [if_neg (by simp [hg3, hro3]), if_neg (by omega)]
    simp [ov64a40_set_ctrl]
  · simp [ov64a40_set_stream, ov64a40_stop_streaming]
  · simp [ov64a40_set_stream, ov64a40_stop_streaming]
  · simp [ov64a40_set_stream, ov64a40_stop_streaming]

/-- Witness for C5: a successful start on the just-probed sensor, a write
attempt of value 1, and a following stop. -/
theorem grabbed_controls_while_streaming_witness :
    sensor0.dev.link_freq.grabbed = false ∧
    sensor0.dev.vflip.grabbed = false ∧
    sensor0.dev.hflip.grabbed = false ∧
    sensor0.dev.link_freq.read_only = false ∧
    sensor0.dev.vflip.read_only = false ∧
    sensor0.dev.hflip.read_only = false ∧
    sensor0.dev.link_freq.minimum ≤ 1 ∧ (1 : Int) ≤ sensor0.dev.link_freq.maximum ∧
    sensor0.dev.vflip.minimum ≤ 1 ∧ (1 : Int) ≤ sensor0.dev.vflip.maximum ∧
    sensor0.dev.hflip.minimum ≤ 1 ∧ (1 : Int) ≤ sensor0.dev.hflip.maximum ∧
    (ov64a40_set_stream okBus sensor0 true).ret = 0 ∧
    ((ov64a40_set_stream okBus sensor0 true).sensor.streaming = true ∧
     (v4l2_s_ctrl okBus (ov64a40_set_stream okBus sensor0 true).sensor.dev
        CtrlId.link_freq 1 false).err = some CtrlWriteErr.controlError ∧
     (v4l2_s_ctrl okBus (ov64a40_set_stream okBus sensor0 true).sensor.dev
        CtrlId.link_freq 1 false).dev = (ov64a40_set_stream okBus sensor0 true).sensor.dev ∧
     (v4l2_s_ctrl okBus (ov64a40_set_stream okBus sensor0 true).sensor.dev
        CtrlId.vflip 1 false).err = some CtrlWriteErr.controlError ∧
     (v4l2_s_ctrl okBus (ov64a40_set_stream okBus sensor0 true).sensor.dev
        CtrlId.vflip 1 false).dev = (ov64a40_set_stream okBus sensor0 true).sensor.dev ∧
     (v4l2_s_ctrl okBus (ov64a40_set_stream okBus sensor0 true).sensor.dev
        CtrlId.hflip 1 false).err = some CtrlWriteErr.controlError ∧
     (v4l2_s_ctrl okBus (ov64a40_set_stream okBus sensor0 true).sensor.dev
        CtrlId.hflip 1 false).dev = (ov64a40_set_stream okBus sensor0 true).sensor.dev ∧
     (v4l2_s_ctrl okBus sensor0.dev CtrlId.link_freq 1 false).err = none ∧
     (v4l2_s_ctrl okBus sensor0.dev CtrlId.vflip 1 false).err = none ∧
     (v4l2_s_ctrl okBus sensor0.dev CtrlId.hflip 1 false).err = none ∧
     (ov64a40_set_stream okBus (ov64a40_set_stream okBus sensor0 true).sensor
        false).sensor.dev.link_freq.grabbed = false ∧
     (ov64a40_set_stream okBus (ov64a40_set_stream okBus sensor0 true).sensor
        false).sensor.dev.vflip.grabbed = false ∧
     (ov64a40_set_stream okBus (ov64a40_set_stream okBus sensor0 true).sensor
        false).sensor.dev.hflip.grabbed = false) :=
  ⟨rfl, rfl, rfl, rfl, rfl, rfl, by decide, by decide, by decide, by decide,
   by decide, by decide, by decide,
   grabbed_controls_while_streaming okBus okBus sensor0 1 false
     rfl rfl rfl rfl rfl rfl (by decide) (by decide) (by decide) (by decide)
     (by decide) (by decide) (by decide)⟩

/-- Witness for C9: an unpowered vertical-blank write of 200 on the
just-probed device, and a successful start on the all-success bus. -/
theorem unpowered_ctrl_write_cached_witness :
    (dev0.ctrlOf CtrlId.vblank).grabbed = false ∧
    (dev0.ctrlOf CtrlId.vblank).read_only = false ∧
    (dev0.ctrlOf CtrlId.vblank).minimum ≤ 200 ∧
    (200 : Int) ≤ (dev0.ctrlOf CtrlId.vblank).maximum ∧
    (ov64a40_start_streaming okBus dev0 0).ret = 0 ∧
    ((v4l2_s_ctrl okBus dev0 CtrlId.vblank 200 false).err = none ∧
     (v4l2_s_ctrl okBus dev0 CtrlId.vblank 200 false).log = [] ∧
     ((v4l2_s_ctrl okBus dev0 CtrlId.vblank 200 false).dev.ctrlOf
        CtrlId.vblank).val = 200 ∧
     (CtrlId.vblank = CtrlId.vblank →
      (v4l2_s_ctrl okBus dev0 CtrlId.vblank 200 false).dev.exposure.maximum =
        (dev0.mode.height : Int) + 200 - OV64A40_EXPOSURE_MARGIN) ∧
     (ov64a40_start_streaming okBus dev0 0).log =
       Ev.multi Table.init_table :: Ev.multi dev0.mode.reglist ::
         ((ov64a40_program_geometry okBus dev0.mode dev0.link_frequencies
             dev0.link_freq.val.toNat).log ++
          (ov64a40_program_subsampling okBus dev0.mode).log ++
          (ov64a40_ctrl_handler_setup okBus dev0).log ++
          [Ev.wr Reg.SMIA OV64A40_REG_SMIA_STREAMING])) :=
  ⟨rfl, rfl, by decide, by decide, by decide,
   unpowered_ctrl_write_cached okBus dev0 CtrlId.vblank 200 okBus dev0 0
     rfl rfl (by decide) (by decide) (by decide)⟩

end OV64A40
